/-
Verification of the ecom-watch scrape orchestration and anti-detection
retry engine.

Shallow embedding of:
  backend/scrapers/manager.py   (run lock, run_scrape, _scrape_single_retailer)
  backend/scrapers/base.py      (BaseScraper: detection heuristics, attempt
                                 executor, escalating retry loop)
  backend/scrapers/utils/storage.py (get_screenshot_filepath)
  backend/config.py             (stealth configuration constants)

Modelling conventions:
  - Python module-level mutable state is threaded explicitly.
  - Exceptions are `Except String` values; `try/finally` is encoded by
    computing the body's outcome and then applying the finaliser.
  - `random.choice` draws are supplied by an oracle index per call site
    (reduced modulo the pool size, so every element is reachable).
  - Wall-clock datetimes are abstracted to `Option Unit` (recorded / not).
  - The live page seen by a scraper attempt is a function from elapsed
    polling seconds to a `PageState`; the durations of human-like delays,
    popup dismissal and scrolling between detection and capture are
    abstracted away (they do not affect the verified properties).
  - Python float arithmetic on progress fractions and delay bounds is
    modelled over `ℚ`; the code only ever multiplies by 1.5 and divides
    small integer counters, where float and rational agree on the
    properties proved here.
-/
import Mathlib

namespace EcomWatch

/-! ## Strings: Python's `needle in haystack` substring test -/

/-- Does `pat` occur as a contiguous block of `l`? -/
def charsContain (pat : List Char) : List Char → Bool
  | [] => pat.isEmpty
  | c :: cs => pat.isPrefixOf (c :: cs) || charsContain pat cs

/-- Python `sub in s` (substring containment), on the underlying char lists. -/
def strContains (s sub : String) : Bool :=
  charsContain sub.data s.data

/-- Python `s[:n]` on strings. -/
def strTake (s : String) (n : Nat) : String :=
  ⟨s.data.take n⟩

/-- Python `s.lower()`, char by char (all phrases compared in the source are
    ASCII, where `Char.toLower` agrees with Python's `str.lower`). -/
def strLower (s : String) : String :=
  ⟨s.data.map Char.toLower⟩

/-! ## base.py / config.py: scraper constants and results -/

namespace Base

/-- base.py `USER_AGENT` (used when stealth mode is off). -/
def USER_AGENT : String :=
  "Ecom-Watch/0.2.0 (Laptop price monitoring for internal competitive analysis)"

/-- base.py `MAX_RETRIES`. -/
def MAX_RETRIES : Nat := 3

/-- base.py `RETRY_BACKOFF` (seconds before retries 1, 2, 3…, capped). -/
def RETRY_BACKOFF : List Nat := [1, 2, 4]

/-- config.py `STEALTH_ENABLED` (the `_load_stealth_config` import succeeds
    in this repository, so the config values, not the fallbacks, are used). -/
def STEALTH_ENABLED : Bool := true

/-- config.py `STEALTH_USER_AGENTS`. -/
def STEALTH_USER_AGENTS : List String :=
  ["Mozilla/5.0 (Windows NT 10.0; Win64; x64) AppleWebKit/537.36 (KHTML, like Gecko) Chrome/121.0.0.0 Safari/537.36",
   "Mozilla/5.0 (Windows NT 10.0; Win64; x64) AppleWebKit/537.36 (KHTML, like Gecko) Chrome/122.0.0.0 Safari/537.36",
   "Mozilla/5.0 (Macintosh; Intel Mac OS X 10_15_7) AppleWebKit/537.36 (KHTML, like Gecko) Chrome/121.0.0.0 Safari/537.36",
   "Mozilla/5.0 (Macintosh; Intel Mac OS X 10_15_7) AppleWebKit/537.36 (KHTML, like Gecko) Chrome/122.0.0.0 Safari/537.36",
   "Mozilla/5.0 (X11; Linux x86_64) AppleWebKit/537.36 (KHTML, like Gecko) Chrome/121.0.0.0 Safari/537.36",
   "Mozilla/5.0 (X11; Linux x86_64) AppleWebKit/537.36 (KHTML, like Gecko) Chrome/122.0.0.0 Safari/537.36"]

/-- config.py `SCRAPE_MIN_DELAY` (seconds). -/
def SCRAPE_MIN_DELAY : ℚ := 3

/-- config.py `SCRAPE_MAX_DELAY` (seconds). -/
def SCRAPE_MAX_DELAY : ℚ := 8

/-- base.py `ScrapeResult` dataclass.  Wall-clock datetimes are abstracted
    to `Option Unit` (a timestamp was / was not recorded); screenshot bytes
    are `List UInt8`. -/
structure ScrapeResult where
  status : String := "completed"
  screenshot_paths : List String := []
  html_path : Option String := none
  page_title : Option String := none
  page_url : Option String := none
  items_found : Nat := 0
  error_message : Option String := none
  started_at : Option Unit := none
  completed_at : Option Unit := none
  screenshot_bytes : Option (List UInt8) := none
  html_content : Option String := none
  deriving Repr, DecidableEq

/-! ### Detection heuristics -/

/-- Observable page state at one instant: title, full markup, URL, and the
    bytes a full-page screenshot would produce.  A live page is modelled as
    a function `Nat → PageState` from elapsed polling seconds after
    navigation to the state then. -/
structure PageState where
  title : String
  content : String
  url : String
  screenshot : List UInt8

/-- `detect_cloudflare_challenge`'s `challenge_titles` list. -/
def challenge_titles : List String :=
  ["Just a moment...", "Attention Required", "Access denied"]

/-- `detect_cloudflare_challenge`'s `challenge_markers` list. -/
def challenge_markers : List String :=
  ["cf-browser-verification", "challenge-platform", "cf-challenge-running", "cf_chl_opt"]

/-- `detect_cloudflare_challenge(page)`: case-insensitive title-phrase match
    or case-sensitive content-marker match. -/
def detect_cloudflare_challenge (p : PageState) : Bool :=
  challenge_titles.any (fun t => strContains (strLower p.title) (strLower t)) ||
  challenge_markers.any (fun m => strContains p.content m)

/-- `detect_access_denied`'s `blocked_titles` list (already lower-case in
    the source). -/
def blocked_titles : List String :=
  ["access denied", "robot check", "are you a robot", "blocked"]

/-- `detect_access_denied(page, response)`: HTTP status in {403, 429, 503}
    (when a response was passed) or a blocked phrase in the lower-cased
    title. -/
def detect_access_denied (p : PageState) (response : Option Nat) : Bool :=
  if (match response with
      | some st => st == 403 || st == 429 || st == 503
      | none => false) then true
  else blocked_titles.any (fun t => strContains (strLower p.title) t)

/-- The polling loop of `wait_for_challenge_resolution` (interval 1 s),
    recursing structurally on the remaining seconds `timeout - elapsed`:
    returns whether the challenge cleared and the elapsed seconds when the
    loop exited. -/
def waitLoopFrom (env : Nat → PageState) : (remaining elapsed : Nat) → Bool × Nat
  | 0, elapsed => (false, elapsed)
  | remaining + 1, elapsed =>
    if detect_cloudflare_challenge (env (elapsed + 1)) then
      waitLoopFrom env remaining (elapsed + 1)
    else (true, elapsed + 1)

/-- `wait_for_challenge_resolution(page, timeout_s=10.0)`. -/
def wait_for_challenge_resolution (env : Nat → PageState) (timeout : Nat := 10) : Bool × Nat :=
  waitLoopFrom env timeout 0

/-! ### Attempt executor (`_attempt_scrape`) and evasion escalation -/

/-- `random.choice(l)` with the oracle draw `r` (reduced mod the pool size,
    so every element is reachable). -/
def random_choice (l : List String) (r : Nat) : String :=
  l.getD (r % l.length) ""

/-- The user agent and in-page delay bounds an attempt runs with. -/
structure EvasionChoice where
  ua : String
  min_delay : ℚ
  max_delay : ℚ
  deriving Repr, DecidableEq

/-- The evasion-escalation part of `_attempt_scrape` combined with
    `_launch_browser`'s UA selection: attempt ≥ 1 under stealth draws a
    fresh UA override and multiplies both delay bounds by 1.5; attempt 0
    under stealth draws the UA inside `_launch_browser`; without stealth
    the legacy `USER_AGENT` is used.  `uaRand` is this attempt's oracle
    draw for `random.choice`. -/
def attempt_evasion (userAgents : List String) (minD maxD : ℚ) (useStealth : Bool)
    (uaRand : Nat) (attempt : Nat) : EvasionChoice :=
  let escalated : Bool := decide (1 ≤ attempt) && useStealth
  let uaOverride : Option String :=
    if escalated then some (random_choice userAgents uaRand) else none
  let bounds : ℚ × ℚ :=
    if escalated then (minD * (3 / 2), maxD * (3 / 2)) else (minD, maxD)
  let ua : String :=
    if useStealth then
      match uaOverride with
      | some u => u
      | none => random_choice userAgents uaRand
    else USER_AGENT
  { ua := ua, min_delay := bounds.1, max_delay := bounds.2 }

/-- The capture tail of `_attempt_scrape`: screenshot, markup, title, URL,
    status `"completed"`. -/
def capture_result (env : Nat → PageState) (t : Nat) : ScrapeResult :=
  { status := "completed"
    screenshot_bytes := some (env t).screenshot
    html_content := some (env t).content
    page_title := some (env t).title
    page_url := some (env t).url }

/-- `_attempt_scrape` after the challenge check: the stealth-only
    access-denied check (called with `response=None`), then rate-limit
    delay, popup dismissal, scrolling (time-abstracted) and capture. -/
def attempt_after_challenge (env : Nat → PageState) (t : Nat) : ScrapeResult :=
  if detect_access_denied (env t) none then
    { status := "blocked"
      error_message := some ("Access denied. Title: " ++ (env t).title ++
                             ". Snippet: " ++ strTake (env t).content 500)
      page_title := some (env t).title
      page_url := some (env t).url }
  else capture_result env t

/-- `_attempt_scrape` from navigation onward, for one attempt: under
    stealth, run the challenge check at time 0, poll up to 10 s if a
    challenge is showing, then the access-denied check; finally capture.
    Without stealth no detection runs. -/
def attempt_scrape_page (useStealth : Bool) (env : Nat → PageState) : ScrapeResult :=
  if useStealth then
    if detect_cloudflare_challenge (env 0) then
      match wait_for_challenge_resolution env with
      | (false, te) =>
        { status := "blocked"
          error_message := some "Cloudflare challenge not resolved"
          page_title := some (env te).title
          page_url := some (env te).url }
      | (true, te) => attempt_after_challenge env te
    else attempt_after_challenge env 0
  else capture_result env 0

/-- `_use_stealth`: global config switch AND the per-scraper flag. -/
def use_stealth (stealth_enabled : Bool) : Bool :=
  STEALTH_ENABLED && stealth_enabled

/-- Per-scraper `stealth_enabled` flags of every scraper in
    `SCRAPER_REGISTRY` (scrapers/retailers/*): six classes set it to `True`
    explicitly; Costco and CanadaComputers inherit the base default `True`. -/
def registry_stealth_flags : List (String × Bool) :=
  [("bestbuy", true), ("staples", true), ("walmart", true), ("costco", true),
   ("amazon", true), ("canadacomputers", true), ("memoryexpress", true),
   ("thesource", true)]

/-! ### Retry loop (`BaseScraper.run`) -/

/-- Outcome of one `_attempt_scrape()` call as `run`'s loop sees it. -/
inductive AttemptOutcome where
  | ok (r : ScrapeResult)
  | timeout (msg : String)
  | exc (ty msg : String)
  deriving Repr, DecidableEq

/-- The `last_error` value `run` records for an attempt (`None` only for a
    returned result that carries no `error_message`). -/
def attempt_error : AttemptOutcome → Option String
  | .ok r => r.error_message
  | .timeout m => some ("Timeout: " ++ m)
  | .exc ty m => some (ty ++ ": " ++ m)

/-- Did the attempt return a result with status `"completed"`? -/
def attempt_completed : AttemptOutcome → Bool
  | .ok r => r.status == "completed"
  | _ => false

/-- An attempt outcome `_attempt_scrape` can actually produce: a returned
    result always carries status `"completed"` or `"blocked"` (raising
    outcomes are unrestricted). -/
def attempt_well_formed : AttemptOutcome → Bool
  | .ok r => r.status == "completed" || r.status == "blocked"
  | _ => true

/-- `run`'s `for attempt in range(MAX_RETRIES)` loop, recursing structurally
    on the remaining iterations (`remaining + k = MAX_RETRIES` at the call
    from `run`), from attempt `k` with accumulated `last_error`; returns the
    final result and the total number of attempts executed. -/
def run_from (attempts : Nat → AttemptOutcome) (result : ScrapeResult) :
    (remaining k : Nat) → (last_error : Option String) → ScrapeResult × Nat
  | 0, k, last_error =>
    ({ result with
         status := "failed"
         error_message := last_error
         completed_at := some () }, k)
  | remaining + 1, k, last_error =>
    match attempts k with
    | .ok ar =>
      if ar.status == "completed" then
        ({ result with
             screenshot_bytes := ar.screenshot_bytes
             html_content := ar.html_content
             page_title := ar.page_title
             page_url := ar.page_url
             status := "completed"
             completed_at := some () }, k + 1)
      else if ar.status == "blocked" then
        run_from attempts result remaining (k + 1) ar.error_message
      else
        run_from attempts result remaining (k + 1) last_error
    | .timeout m => run_from attempts result remaining (k + 1) (some ("Timeout: " ++ m))
    | .exc ty m => run_from attempts result remaining (k + 1) (some (ty ++ ": " ++ m))

/-- `BaseScraper.run()`, over an oracle giving each attempt's outcome. -/
def run (attempts : Nat → AttemptOutcome) : ScrapeResult × Nat :=
  run_from attempts { started_at := some () } MAX_RETRIES 0 none

end Base

/-! ## manager.py: the run lock and orchestrator state -/

namespace Manager

/-- The `_current_scrape` dict's fields (manager.py, `claim_scrape_lock`). -/
structure ScrapeState where
  current_retailer : Option String
  progress : ℚ
  retailers_completed : Nat
  retailers_total : Nat
  deriving Repr, DecidableEq

/-- `_current_scrape: Optional[dict]` — the module-level lock variable. -/
abbrev LockState := Option ScrapeState

/-- The dict `claim_scrape_lock` installs on success. -/
def initialScrapeState : ScrapeState :=
  { current_retailer := none, progress := 0, retailers_completed := 0, retailers_total := 0 }

/-- Shape returned by `get_scrape_status`. -/
structure ScrapeStatus where
  running : Bool
  current_retailer : Option String
  progress : ℚ
  retailers_completed : Nat
  retailers_total : Nat
  deriving Repr, DecidableEq

/-- `get_scrape_status()` — non-mutating read of `_current_scrape`. -/
def get_scrape_status : LockState → ScrapeStatus
  | none => { running := false, current_retailer := none, progress := 0,
              retailers_completed := 0, retailers_total := 0 }
  | some s => { running := true, current_retailer := s.current_retailer,
                progress := s.progress, retailers_completed := s.retailers_completed,
                retailers_total := s.retailers_total }

/-- `claim_scrape_lock()` — check-and-set on `_current_scrape`; returns
    (return value, new lock state). -/
def claim_scrape_lock : LockState → Bool × LockState
  | none => (true, some initialScrapeState)
  | some s => (false, some s)

/-- `release_scrape_lock()` — unconditionally clears `_current_scrape`. -/
def release_scrape_lock (_ : LockState) : LockState := none

/-! ### run_scrape -/

/-- Retailer rows `run_scrape` consults (database.models.Retailer, the
    fields the manager touches). -/
structure Retailer where
  slug : String
  name : String
  scrape_enabled : Bool
  deriving Repr, DecidableEq

/-- `db.query(Retailer).filter(Retailer.scrape_enabled.is_(True)).all()`. -/
def queryEnabled (db : List Retailer) : List Retailer :=
  db.filter (·.scrape_enabled)

/-- `db.query(Retailer).filter(Retailer.slug == slug).first()`. -/
def queryBySlug (db : List Retailer) (slug : String) : Option Retailer :=
  db.find? (·.slug == slug)

/-- Target resolution at the top of `run_scrape`'s `try` body: "all" takes
    every enabled retailer; a named slug must exist and be enabled, else a
    `ValueError` propagates. -/
def resolveRetailers (db : List Retailer) (slug : String) : Except String (List Retailer) :=
  if slug == "all" then .ok (queryEnabled db)
  else
    match queryBySlug db slug with
    | none => .error ("Unknown retailer: " ++ slug)
    | some r =>
      if !r.scrape_enabled then .error ("Retailer " ++ slug ++ " is disabled for scraping")
      else .ok [r]

/-- `run_scrape`'s `for idx, retailer in enumerate(retailers)` loop,
    parametric in the per-retailer processing step `process` (which may
    raise) over collaborator state `σ`.  `n = len(retailers)`.  Returns the
    run ids (or the propagated exception), the loop's final `_current_scrape`
    value, the final collaborator state, and the snapshots of
    `_current_scrape` taken just after each of the two progress updates. -/
def scrapeLoop {σ : Type} (process : σ → Retailer → Except String Nat × σ) (n : Nat) :
    Nat → List Retailer → ScrapeState → σ →
    Except String (List Nat) × ScrapeState × σ × List ScrapeState
  | _, [], s, st => (.ok [], s, st, [])
  | idx, r :: rest, s, st =>
    let s1 := { s with current_retailer := some r.name }
    let s2 := { s1 with progress := (idx : ℚ) / (n : ℚ) }
    match process st r with
    | (.error e, st2) => (.error e, s2, st2, [s2])
    | (.ok runId, st2) =>
      let s3 := { s2 with retailers_completed := idx + 1 }
      let s4 := { s3 with progress := ((idx + 1 : Nat) : ℚ) / (n : ℚ) }
      let rest_out := scrapeLoop process n (idx + 1) rest s4 st2
      (Except.map (fun ids => runId :: ids) rest_out.1,
       rest_out.2.1, rest_out.2.2.1, s2 :: s4 :: rest_out.2.2.2)

/-- What `run_scrape` leaves behind: its return value or propagated
    exception, the final `_current_scrape`, the final collaborator state,
    and the in-run snapshots of `_current_scrape` (the state right after
    `retailers_total` is set, then after each progress update). -/
structure RunScrapeResult (σ : Type) where
  ret : Except String (List Nat)
  lock : LockState
  ext : σ
  trace : List ScrapeState

/-- The `try … finally` body of `run_scrape`: resolve targets, early-return
    on an empty list, set `retailers_total`, run the loop; the `finally`
    sets `_current_scrape = None` on every exit path. -/
def run_scrape_body {σ : Type} (process : σ → Retailer → Except String Nat × σ)
    (db : List Retailer) (slug : String) (lock : LockState) (st : σ) :
    RunScrapeResult σ :=
  -- the lock is provably `some` whenever this runs; `getD` only totalises
  let s0 : ScrapeState := lock.getD initialScrapeState
  let out : Except String (List Nat) × σ × List ScrapeState :=
    match resolveRetailers db slug with
    | .error e => (.error e, st, [])
    | .ok retailers =>
      if retailers.isEmpty then (.ok [], st, [])
      else
        let s1 := { s0 with retailers_total := retailers.length }
        match scrapeLoop process retailers.length 0 retailers s1 st with
        | (res, _, stf, tr) => (res, stf, s1 :: tr)
  { ret := out.1, lock := none, ext := out.2.1, trace := out.2.2 }

/-- `run_scrape(retailer_slug, trigger_type, db)`.  The guard before the
    `try` re-claims the lock when it is free (`claim_scrape_lock` on a free
    lock always succeeds, so the `RuntimeError` branch is unreachable). -/
def run_scrape {σ : Type} (process : σ → Retailer → Except String Nat × σ)
    (db : List Retailer) (retailer_slug : String) (lock : LockState) (st : σ) :
    RunScrapeResult σ :=
  match lock with
  | none =>
    match claim_scrape_lock none with
    | (true, lock1) => run_scrape_body process db retailer_slug lock1 st
    | (false, _) =>
      { ret := .error "A scrape is already in progress", lock := none, ext := st, trace := [] }
  | some s => run_scrape_body process db retailer_slug (some s) st

/-! ### _scrape_single_retailer -/

/-- The ScrapeRun row as committed by `_scrape_single_retailer` (fields the
    manager writes). -/
structure ScrapeRunRecord where
  retailer : String
  trigger_type : String
  status : String
  error_message : Option String
  items_found : Nat
  completed_at : Option Unit
  deriving Repr, DecidableEq, Inhabited

/-- Collaborator (database) state threaded through a run: the next ScrapeRun
    id and the committed rows. -/
structure DbState where
  nextId : Nat
  runs : List ScrapeRunRecord
  deriving Repr, DecidableEq

/-- `SCRAPER_REGISTRY` together with each registered scraper's `run()`
    behaviour for this run: `none` — no scraper registered for the slug;
    `some (.ok r)` — `run()` returns `r`; `some (.error e)` — `run()`
    raises, where `e` stands for `f"{type(e).__name__}: {e}"`. -/
abbrev Registry := String → Option (Except String Base.ScrapeResult)

/-- `_scrape_single_retailer(retailer, trigger_type, db)`: create the row,
    look up the scraper, run it with its exception caught and converted to
    a failed result, commit the outcome, return the run id.  It never
    raises. -/
def scrape_single_retailer (registry : Registry) (trigger_type : String)
    (db : DbState) (r : Retailer) : Except String Nat × DbState :=
  let runId := db.nextId
  match registry r.slug with
  | none =>
    let row : ScrapeRunRecord :=
      { retailer := r.name, trigger_type := trigger_type, status := "failed",
        error_message := some ("No scraper registered for " ++ r.slug),
        items_found := 0, completed_at := some () }
    (.ok runId, { nextId := runId + 1, runs := db.runs ++ [row] })
  | some behavior =>
    let result : Base.ScrapeResult :=
      match behavior with
      | .ok res => res
      | .error e =>
        { status := "failed", error_message := some ("Unexpected error: " ++ e),
          started_at := some (), completed_at := some () }
    let row : ScrapeRunRecord :=
      { retailer := r.name, trigger_type := trigger_type, status := result.status,
        error_message := result.error_message, items_found := result.items_found,
        completed_at := some () }
    (.ok runId, { nextId := runId + 1, runs := db.runs ++ [row] })

/-- The committed row `scrape_single_retailer` produces for one retailer
    (its effect on the database, as a function). -/
def expectedRow (registry : Registry) (trigger_type : String) (r : Retailer) :
    ScrapeRunRecord :=
  (scrape_single_retailer registry trigger_type { nextId := 0, runs := [] } r).2.runs.headI

/-- Collapse consecutive duplicate values, to read off the distinct values a
    counter takes over time, in order. -/
def collapseRuns : List Nat → List Nat
  | [] => []
  | [a] => [a]
  | a :: b :: rest =>
    if a = b then collapseRuns (b :: rest) else a :: collapseRuns (b :: rest)

/-- The completed-counter samples contributed by `run_scrape`'s loop running
    from index `idx` over `k` retailers (two progress updates per
    iteration). -/
def stepTrace (idx : Nat) : Nat → List Nat
  | 0 => []
  | k + 1 => idx :: (idx + 1) :: stepTrace (idx + 1) k

end Manager

/-! ## storage.py -/

namespace Storage

/-- `get_screenshot_filepath(retailer, date_str, filename)`, with the
    filesystem abstracted as the two oracles `exists_fn` / `is_file_fn`.
    Returns the resolved path components (relative to `SCREENSHOTS_DIR`)
    and the number of filesystem calls made before returning. -/
def get_screenshot_filepath (exists_fn is_file_fn : List String → Bool)
    (retailer date_str filename : String) : Option (List String) × Nat :=
  if [retailer, date_str, filename].any
      (fun c => strContains c ".." || strContains c "/" || strContains c "\\") then
    (none, 0)
  else
    let filepath := [retailer, date_str, filename]
    if exists_fn filepath then
      if is_file_fn filepath then (some filepath, 2) else (none, 2)
    else (none, 1)

end Storage

end EcomWatch

/-!
## Theorems
-/

namespace EcomWatch
namespace Manager

/-- C1: on a free lock, `claim_scrape_lock` installs the initial state and
    returns true; on a held lock it returns false and leaves the state
    unchanged; after `release_scrape_lock` a claim succeeds again. -/
theorem claim_scrape_lock_single_flight :
    claim_scrape_lock none = (true, some initialScrapeState) ∧
    (∀ s : ScrapeState, claim_scrape_lock (some s) = (false, some s)) ∧
    (∀ l : LockState, claim_scrape_lock (release_scrape_lock l) =
      (true, some initialScrapeState)) := by
  refine ⟨rfl, fun s => rfl, fun l => rfl⟩

/-- C2: every execution of `run_scrape` — normal completion, an empty
    resolved retailer list, an exception while resolving the retailer
    (unknown or disabled slug), or an exception raised during per-retailer
    processing — clears the orchestrator state on return, so
    `get_scrape_status().running` is false immediately afterwards. -/
theorem run_scrape_lock_hygiene {σ : Type}
    (process : σ → Retailer → Except String Nat × σ)
    (db : List Retailer) (slug : String) (lock : LockState) (st : σ) :
    (run_scrape process db slug lock st).lock = none ∧
    (get_scrape_status (run_scrape process db slug lock st).lock).running = false := by
  have h : (run_scrape process db slug lock st).lock = none := by
    cases lock <;> rfl
  exact ⟨h, by rw [h]; rfl⟩

/-- Helper: `_scrape_single_retailer` always returns the next run id (never
    raises) and appends exactly its retailer's committed row. -/
theorem scrape_single_retailer_eq (registry : Registry) (trig : String)
    (st : DbState) (r : Retailer) :
    scrape_single_retailer registry trig st r =
      (.ok st.nextId,
       { nextId := st.nextId + 1, runs := st.runs ++ [expectedRow registry trig r] }) := by
  rcases hreg : registry r.slug with _ | b <;>
    simp [scrape_single_retailer, expectedRow, hreg]

/-- Helper: the per-retailer loop over `_scrape_single_retailer` never
    aborts: it returns consecutively allocated run ids and appends one
    committed row per retailer, in order. -/
theorem scrapeLoop_single_spec (registry : Registry) (trig : String) (n : Nat) :
    ∀ (rs : List Retailer) (idx : Nat) (s : ScrapeState) (st : DbState),
      (scrapeLoop (scrape_single_retailer registry trig) n idx rs s st).1 =
        .ok (List.range' st.nextId rs.length) ∧
      (scrapeLoop (scrape_single_retailer registry trig) n idx rs s st).2.2.1 =
        { nextId := st.nextId + rs.length,
          runs := st.runs ++ rs.map (expectedRow registry trig) } := by
  intro rs
  induction rs with
  | nil => intro idx s st; exact ⟨rfl, by simp [scrapeLoop]⟩
  | cons r rest ih =>
    intro idx s st
    obtain ⟨ih1, ih2⟩ := ih (idx + 1)
      { { s with current_retailer := some r.name, progress := (idx : ℚ) / (n : ℚ) } with
          retailers_completed := idx + 1, progress := ((idx + 1 : Nat) : ℚ) / (n : ℚ) }
      { nextId := st.nextId + 1, runs := st.runs ++ [expectedRow registry trig r] }
    constructor
    · simp only [scrapeLoop, scrape_single_retailer_eq, ih1, Except.map, List.length_cons,
        List.range'_succ]
    · simp only [scrapeLoop, scrape_single_retailer_eq, ih2, List.length_cons, List.map_cons]
      simp only [DbState.mk.injEq]
      exact ⟨by omega, by simp [List.append_assoc]⟩

/-- C4: in a run over a list of retailers, a retailer whose scraper raises
    (or has no registered scraper) does not abort the loop: every retailer
    still gets a run id and a committed row, and that retailer's row records
    status "failed" with the error detail. -/
theorem run_scrape_failure_isolation
    (registry : Registry) (trig : String) (pre post : List Retailer) (r : Retailer)
    (db0 : DbState) (lock : LockState) (e : String)
    (hen : ∀ x ∈ pre ++ r :: post, x.scrape_enabled = true)
    (hbad : registry r.slug = some (.error e) ∨ registry r.slug = none) :
    (run_scrape (scrape_single_retailer registry trig) (pre ++ r :: post) "all" lock db0).ret =
      .ok (List.range' db0.nextId (pre ++ r :: post).length) ∧
    (run_scrape (scrape_single_retailer registry trig) (pre ++ r :: post) "all" lock db0).ext.runs =
      db0.runs ++ (pre ++ r :: post).map (expectedRow registry trig) ∧
    ((pre ++ r :: post).map (expectedRow registry trig))[pre.length]? =
      some (expectedRow registry trig r) ∧
    (expectedRow registry trig r).status = "failed" ∧
    (registry r.slug = some (.error e) →
      (expectedRow registry trig r).error_message = some ("Unexpected error: " ++ e)) ∧
    (registry r.slug = none →
      (expectedRow registry trig r).error_message =
        some ("No scraper registered for " ++ r.slug)) := by
  have hres : resolveRetailers (pre ++ r :: post) "all" =
      .ok ((pre ++ r :: post).filter (fun x => x.scrape_enabled)) := rfl
  rw [List.filter_eq_self.mpr hen] at hres
  have hne : ((pre ++ r :: post).isEmpty) = false := by
    cases pre <;> rfl
  have hbody : ∀ s0 : ScrapeState,
      (run_scrape_body (scrape_single_retailer registry trig) (pre ++ r :: post) "all"
          (some s0) db0).ret =
        .ok (List.range' db0.nextId (pre ++ r :: post).length) ∧
      (run_scrape_body (scrape_single_retailer registry trig) (pre ++ r :: post) "all"
          (some s0) db0).ext.runs =
        db0.runs ++ (pre ++ r :: post).map (expectedRow registry trig) := by
    intro s0
    obtain ⟨h1, h2⟩ := scrapeLoop_single_spec registry trig (pre ++ r :: post).length
      (pre ++ r :: post) 0
      { s0 with retailers_total := (pre ++ r :: post).length } db0
    constructor
    · simp only [run_scrape_body, hres, hne, Bool.false_eq_true, if_false, Option.getD_some, h1]
    · simp only [run_scrape_body, hres, hne, Bool.false_eq_true, if_false, Option.getD_some, h2]
  have hmain :
      (run_scrape (scrape_single_retailer registry trig) (pre ++ r :: post) "all" lock db0).ret =
        .ok (List.range' db0.nextId (pre ++ r :: post).length) ∧
      (run_scrape (scrape_single_retailer registry trig) (pre ++ r :: post) "all" lock
          db0).ext.runs =
        db0.runs ++ (pre ++ r :: post).map (expectedRow registry trig) := by
    cases lock with
    | none => exact hbody initialScrapeState
    | some s => exact hbody s
  have hget : ((pre ++ r :: post).map (expectedRow registry trig))[pre.length]? =
      some (expectedRow registry trig r) := by
    rw [List.getElem?_map]
    rw [List.getElem?_append_right (le_refl pre.length)]
    simp
  have hrow : (expectedRow registry trig r).status = "failed" ∧
      (registry r.slug = some (.error e) →
        (expectedRow registry trig r).error_message = some ("Unexpected error: " ++ e)) ∧
      (registry r.slug = none →
        (expectedRow registry trig r).error_message =
          some ("No scraper registered for " ++ r.slug)) := by
    rcases hbad with h | h <;>
      simp [expectedRow, scrape_single_retailer, h]
  exact ⟨hmain.1, hmain.2, hget, hrow.1, hrow.2.1, hrow.2.2⟩

/-- Registry for the C4 witness: retailer "b"'s scraper raises, retailer
    "c" has no scraper registered, retailer "a" completes normally. -/
def cRegistry : Registry := fun s =>
  if s == "b" then some (.error "RuntimeError: browser crashed")
  else if s == "a" then some (.ok { status := "completed" }) else none

/-- Retailers for the C4 witness. -/
def cRetailerA : Retailer := { slug := "a", name := "A", scrape_enabled := true }

/-- The failing retailer of the C4 witness. -/
def cRetailerB : Retailer := { slug := "b", name := "B", scrape_enabled := true }

/-- A trailing retailer for the C4 witness, processed after the failure. -/
def cRetailerC : Retailer := { slug := "c", name := "C", scrape_enabled := true }

/-- C4 witness: with retailer "b" raising between "a" and "c", all three
    retailers are processed and "b"'s row is failed with the error detail. -/
theorem run_scrape_failure_isolation_witness :
    (run_scrape (scrape_single_retailer cRegistry "manual")
        ([cRetailerA] ++ cRetailerB :: [cRetailerC]) "all" none
        { nextId := 0, runs := [] }).ret =
      .ok (List.range' 0 ([cRetailerA] ++ cRetailerB :: [cRetailerC]).length) ∧
    (run_scrape (scrape_single_retailer cRegistry "manual")
        ([cRetailerA] ++ cRetailerB :: [cRetailerC]) "all" none
        { nextId := 0, runs := [] }).ext.runs =
      [] ++ ([cRetailerA] ++ cRetailerB :: [cRetailerC]).map (expectedRow cRegistry "manual") ∧
    (([cRetailerA] ++ cRetailerB :: [cRetailerC]).map
        (expectedRow cRegistry "manual"))[([cRetailerA] : List Retailer).length]? =
      some (expectedRow cRegistry "manual" cRetailerB) ∧
    (expectedRow cRegistry "manual" cRetailerB).status = "failed" ∧
    (cRegistry cRetailerB.slug = some (.error "RuntimeError: browser crashed") →
      (expectedRow cRegistry "manual" cRetailerB).error_message =
        some ("Unexpected error: " ++ "RuntimeError: browser crashed")) ∧
    (cRegistry cRetailerB.slug = none →
      (expectedRow cRegistry "manual" cRetailerB).error_message =
        some ("No scraper registered for " ++ cRetailerB.slug)) :=
  run_scrape_failure_isolation cRegistry "manual" [cRetailerA] [cRetailerC] cRetailerB
    { nextId := 0, runs := [] } none "RuntimeError: browser crashed"
    (by decide) (Or.inl rfl)

/-- Helper: collapsing the sampled completed-counter values starting at
    `idx` yields the consecutive values `idx, idx+1, …, idx+k`. -/
theorem collapseRuns_stepTrace :
    ∀ (k idx : Nat), collapseRuns (idx :: stepTrace idx k) = List.range' idx (k + 1) := by
  intro k
  induction k with
  | zero => intro idx; rfl
  | succ n ih =>
    intro idx
    show collapseRuns (idx :: idx :: (idx + 1) :: stepTrace (idx + 1) n) = _
    rw [collapseRuns, if_pos rfl]
    rw [show collapseRuns (idx :: (idx + 1) :: stepTrace (idx + 1) n) =
          if idx = idx + 1 then collapseRuns ((idx + 1) :: stepTrace (idx + 1) n)
          else idx :: collapseRuns ((idx + 1) :: stepTrace (idx + 1) n) from rfl]
    rw [if_neg (by omega)]
    rw [ih (idx + 1)]
    exact (List.range'_succ idx (n + 1) 1).symm

/-- Helper: with a per-retailer step that never raises, the loop samples the
    completed counter as `stepTrace`, and every sampled state carries
    `retailers_total = n` and `progress = retailers_completed / n`. -/
theorem scrapeLoop_trace_spec {σ : Type} (process : σ → Retailer → Except String Nat × σ)
    (hok : ∀ st r, ∃ i, (process st r).1 = Except.ok i) (n : Nat) :
    ∀ (rs : List Retailer) (idx : Nat) (s : ScrapeState) (st : σ),
      s.retailers_completed = idx → s.retailers_total = n →
      ((scrapeLoop process n idx rs s st).2.2.2.map (fun x => x.retailers_completed) =
        stepTrace idx rs.length) ∧
      (∀ x ∈ (scrapeLoop process n idx rs s st).2.2.2,
        x.retailers_total = n ∧
        x.progress = (x.retailers_completed : ℚ) / (n : ℚ)) := by
  intro rs
  induction rs with
  | nil =>
    intro idx s st hc ht
    exact ⟨rfl, by intro x hx; simp [scrapeLoop] at hx⟩
  | cons r rest ih =>
    intro idx s st hc ht
    obtain ⟨i, hi⟩ := hok st r
    rcases hp : process st r with ⟨pr, st2⟩
    rw [hp] at hi
    simp only at hi
    subst hi
    obtain ⟨ih1, ih2⟩ := ih (idx + 1)
      { { s with current_retailer := some r.name, progress := (idx : ℚ) / (n : ℚ) } with
          retailers_completed := idx + 1, progress := ((idx + 1 : Nat) : ℚ) / (n : ℚ) }
      st2 rfl ht
    constructor
    · simp only [scrapeLoop, hp, List.map_cons, ih1, List.length_cons, stepTrace]
      rw [hc]
    · intro x hx
      simp only [scrapeLoop, hp, List.mem_cons] at hx
      rcases hx with hx | hx | hx
      · subst hx
        refine ⟨ht, ?_⟩
        simp [hc, ht]
      · subst hx
        refine ⟨ht, ?_⟩
        simp [ht]
      · exact ih2 x hx

/-- C5: across a run over `N` retailers in which no step raises, the
    `retailers_completed` counter takes exactly the values `0, 1, …, N` in
    order, and at every progress update `progress` equals
    `retailers_completed / retailers_total` (with `retailers_total = N`). -/
theorem run_scrape_progress_monotone {σ : Type}
    (process : σ → Retailer → Except String Nat × σ)
    (db : List Retailer) (slug : String) (lock : LockState) (st : σ) (rs : List Retailer)
    (hok : ∀ s r, ∃ i, (process s r).1 = Except.ok i)
    (hres : resolveRetailers db slug = .ok rs)
    (hne : rs ≠ [])
    (hlock : lock = none ∨ lock = some initialScrapeState) :
    collapseRuns ((run_scrape process db slug lock st).trace.map
        (fun x => x.retailers_completed)) = List.range (rs.length + 1) ∧
    ∀ x ∈ (run_scrape process db slug lock st).trace,
      x.retailers_total = rs.length ∧
      x.progress = (x.retailers_completed : ℚ) / (x.retailers_total : ℚ) := by
  have hne' : rs.isEmpty = false := by
    cases rs
    · exact absurd rfl hne
    · rfl
  have hbody :
      collapseRuns ((run_scrape_body process db slug (some initialScrapeState) st).trace.map
          (fun x => x.retailers_completed)) = List.range (rs.length + 1) ∧
      ∀ x ∈ (run_scrape_body process db slug (some initialScrapeState) st).trace,
        x.retailers_total = rs.length ∧
        x.progress = (x.retailers_completed : ℚ) / (x.retailers_total : ℚ) := by
    obtain ⟨h1, h2⟩ := scrapeLoop_trace_spec process hok rs.length rs 0
      { initialScrapeState with retailers_total := rs.length } st rfl rfl
    constructor
    · simp only [run_scrape_body, hres, hne', Bool.false_eq_true, if_false,
        Option.getD_some, List.map_cons, h1]
      rw [show ({ initialScrapeState with
            retailers_total := rs.length } : ScrapeState).retailers_completed = 0 from rfl]
      rw [collapseRuns_stepTrace rs.length 0]
      rw [List.range_eq_range']
    · intro x hx
      simp only [run_scrape_body, hres, hne', Bool.false_eq_true, if_false,
        Option.getD_some, List.mem_cons] at hx
      rcases hx with hx | hx
      · subst hx
        refine ⟨rfl, ?_⟩
        show (0 : ℚ) = (0 : ℚ) / (rs.length : ℚ)
        rw [zero_div]
      · obtain ⟨hxt, hxp⟩ := h2 x hx
        exact ⟨hxt, by rw [hxp, hxt]⟩
  rcases hlock with h | h <;> subst h
  · exact hbody
  · exact hbody

/-- Per-retailer step for the C5 witness: always succeeds with run id 0. -/
def cOkProcess : Unit → Retailer → Except String Nat × Unit :=
  fun u _ => (.ok 0, u)

/-- C5 witness: a two-retailer run samples the completed counter as
    0, 1, 2 in order, with progress equal to the completed fraction at
    every sample. -/
theorem run_scrape_progress_monotone_witness :
    collapseRuns ((run_scrape cOkProcess [cRetailerA, cRetailerC] "all" none ()).trace.map
        (fun x => x.retailers_completed)) = List.range 3 ∧
    ∀ x ∈ (run_scrape cOkProcess [cRetailerA, cRetailerC] "all" none ()).trace,
      x.retailers_total = 2 ∧
      x.progress = (x.retailers_completed : ℚ) / (x.retailers_total : ℚ) := by
  have h := run_scrape_progress_monotone cOkProcess [cRetailerA, cRetailerC] "all" none ()
    [cRetailerA, cRetailerC] (fun s r => ⟨0, rfl⟩) rfl
    (by decide) (Or.inl rfl)
  exact ⟨h.1, fun x hx => h.2 x hx⟩

end Manager

namespace Base

/-- C6: evaluation of the escalation at the failing input.  The configured
    pool has more than one profile, yet when the per-attempt `random.choice`
    draws index 0 on both attempt 0 and attempt 1 the two consecutive
    attempts run with the same user agent (the draw never excludes the
    previous attempt's choice); the delay bounds do escalate from (3, 8) to
    (4.5, 12). -/
theorem attempt_evasion_ua_can_repeat :
    1 < STEALTH_USER_AGENTS.length ∧
    (attempt_evasion STEALTH_USER_AGENTS SCRAPE_MIN_DELAY SCRAPE_MAX_DELAY true 0 0).ua =
      (attempt_evasion STEALTH_USER_AGENTS SCRAPE_MIN_DELAY SCRAPE_MAX_DELAY true 0 1).ua ∧
    (attempt_evasion STEALTH_USER_AGENTS SCRAPE_MIN_DELAY SCRAPE_MAX_DELAY true 0 0).min_delay = 3 ∧
    (attempt_evasion STEALTH_USER_AGENTS SCRAPE_MIN_DELAY SCRAPE_MAX_DELAY true 0 1).min_delay = 9 / 2 ∧
    (attempt_evasion STEALTH_USER_AGENTS SCRAPE_MIN_DELAY SCRAPE_MAX_DELAY true 0 0).max_delay = 8 ∧
    (attempt_evasion STEALTH_USER_AGENTS SCRAPE_MIN_DELAY SCRAPE_MAX_DELAY true 0 1).max_delay = 12 := by
  refine ⟨by decide, rfl, rfl, ?_, rfl, ?_⟩ <;>
    norm_num [attempt_evasion, random_choice, SCRAPE_MIN_DELAY, SCRAPE_MAX_DELAY]

/-- Any result `_attempt_scrape` returns has status "completed" or
    "blocked": the oracle shape assumed by the retry-loop theorems is
    realised by the attempt executor. -/
theorem attempt_scrape_page_wf (useStealth : Bool) (env : Nat → PageState) :
    attempt_well_formed (.ok (attempt_scrape_page useStealth env)) = true := by
  unfold attempt_well_formed attempt_scrape_page attempt_after_challenge capture_result
  cases useStealth with
  | false => rfl
  | true =>
    by_cases h : detect_cloudflare_challenge (env 0)
    · simp only [h, if_true]
      rcases hw : wait_for_challenge_resolution env with ⟨b, te⟩
      cases b
      · rfl
      · by_cases hd : detect_access_denied (env te) none <;> simp [hd]
    · simp only [h, if_false]
      by_cases hd : detect_access_denied (env 0) none <;> simp [hd]

/-- Helper: the retry loop performs at most `k + remaining` attempts. -/
theorem run_from_count_le (attempts : Nat → AttemptOutcome) (res : ScrapeResult) :
    ∀ remaining k le, (run_from attempts res remaining k le).2 ≤ k + remaining := by
  intro remaining
  induction remaining with
  | zero => intro k le; simp [run_from]
  | succ n ih =>
    intro k le
    cases hak : attempts k with
    | ok ar =>
      simp only [run_from, hak]
      by_cases hc : (ar.status == "completed") = true
      · rw [if_pos hc]; exact (by omega : k + 1 ≤ k + (n + 1))
      · rw [if_neg hc]
        by_cases hb : (ar.status == "blocked") = true
        · rw [if_pos hb]; exact le_trans (ih (k + 1) _) (by omega)
        · rw [if_neg hb]; exact le_trans (ih (k + 1) _) (by omega)
    | timeout m =>
      simp only [run_from, hak]
      exact le_trans (ih (k + 1) _) (by omega)
    | exc ty m =>
      simp only [run_from, hak]
      exact le_trans (ih (k + 1) _) (by omega)

/-- Helper: the retry loop's final status is "completed" or "failed". -/
theorem run_from_status_dichotomy (attempts : Nat → AttemptOutcome) (res : ScrapeResult) :
    ∀ remaining k le, (run_from attempts res remaining k le).1.status = "completed" ∨
      (run_from attempts res remaining k le).1.status = "failed" := by
  intro remaining
  induction remaining with
  | zero => intro k le; right; rfl
  | succ n ih =>
    intro k le
    cases hak : attempts k with
    | ok ar =>
      simp only [run_from, hak]
      by_cases hc : (ar.status == "completed") = true
      · rw [if_pos hc]; left; rfl
      · rw [if_neg hc]
        by_cases hb : (ar.status == "blocked") = true
        · rw [if_pos hb]; exact ih (k + 1) _
        · rw [if_neg hb]; exact ih (k + 1) _
    | timeout m =>
      simp only [run_from, hak]
      exact ih (k + 1) _
    | exc ty m =>
      simp only [run_from, hak]
      exact ih (k + 1) _

/-- Helper: when every attempt is well formed and none completes, the loop
    exhausts all remaining attempts and fails with the last attempt's
    recorded error (or the incoming `last_error` if it never iterates). -/
theorem run_from_exhaust (attempts : Nat → AttemptOutcome) (res : ScrapeResult) :
    ∀ remaining k le, remaining + k = MAX_RETRIES →
      (∀ j, j < MAX_RETRIES → attempt_well_formed (attempts j) = true) →
      (∀ j, j < MAX_RETRIES → attempt_completed (attempts j) = false) →
      run_from attempts res remaining k le =
        ({ res with
             status := "failed"
             error_message :=
               if remaining = 0 then le else attempt_error (attempts (MAX_RETRIES - 1))
             completed_at := some () }, MAX_RETRIES) := by
  intro remaining
  induction remaining with
  | zero =>
    intro k le hk hwf hnc
    simp only [run_from, if_pos rfl]
    exact congrArg _ (by omega)
  | succ n ih =>
    intro k le hk hwf hnc
    have hklt : k < MAX_RETRIES := by omega
    have hwfk := hwf k hklt
    have hnck := hnc k hklt
    cases hak : attempts k with
    | ok ar =>
      rw [hak] at hwfk hnck
      simp only [attempt_completed] at hnck
      simp only [attempt_well_formed, hnck, Bool.false_or] at hwfk
      simp only [run_from, hak, hnck, Bool.false_eq_true, if_false, hwfk, if_true]
      rw [ih (k + 1) ar.error_message (by omega) hwf hnc]
      by_cases h0 : n = 0
      · subst h0
        have : k = MAX_RETRIES - 1 := by omega
        subst this
        rw [hak]
        simp [attempt_error]
      · simp [h0]
    | timeout m =>
      simp only [run_from, hak]
      rw [ih (k + 1) (some ("Timeout: " ++ m)) (by omega) hwf hnc]
      by_cases h0 : n = 0
      · subst h0
        have : k = MAX_RETRIES - 1 := by omega
        subst this
        rw [hak]
        simp [attempt_error]
      · simp [h0]
    | exc ty m =>
      simp only [run_from, hak]
      rw [ih (k + 1) (some (ty ++ ": " ++ m)) (by omega) hwf hnc]
      by_cases h0 : n = 0
      · subst h0
        have : k = MAX_RETRIES - 1 := by omega
        subst this
        rw [hak]
        simp [attempt_error]
      · simp [h0]

/-- C3: `BaseScraper.run()` executes at most `MAX_RETRIES` (= 3) attempts,
    and when no attempt completes (every returned result is non-"completed",
    each returned result having the executor's "completed"/"blocked" shape)
    it returns status "failed" with the last attempt's recorded error
    detail as `error_message`. -/
theorem run_bounded_retries (attempts : Nat → AttemptOutcome) :
    (run attempts).2 ≤ MAX_RETRIES ∧
    ((∀ j, j < MAX_RETRIES → attempt_well_formed (attempts j) = true) →
     (∀ j, j < MAX_RETRIES → attempt_completed (attempts j) = false) →
     (run attempts).1.status = "failed" ∧
     (run attempts).1.error_message = attempt_error (attempts (MAX_RETRIES - 1))) := by
  constructor
  · have h := run_from_count_le attempts { started_at := some () } MAX_RETRIES 0 none
    simpa [run] using h
  · intro hwf hnc
    have h := run_from_exhaust attempts { started_at := some () } MAX_RETRIES 0 none
      (by omega) hwf hnc
    rw [run, h]
    constructor
    · rfl
    · simp [MAX_RETRIES]

/-- Attempt oracle for the C3 witness: every attempt comes back blocked,
    with a distinct reason per attempt. -/
def cBlockedAttempts : Nat → AttemptOutcome := fun k =>
  .ok { status := "blocked", error_message := some ⟨List.replicate (k + 1) 'b'⟩ }

/-- C3 witness: with three blocked attempts, `run` performs at most three
    attempts and fails with the third attempt's reason. -/
theorem run_bounded_retries_witness :
    (run cBlockedAttempts).2 ≤ MAX_RETRIES ∧
    (run cBlockedAttempts).1.status = "failed" ∧
    (run cBlockedAttempts).1.error_message = some "bbb" := by
  have h := run_bounded_retries cBlockedAttempts
  have h2 := h.2 (fun j _ => rfl) (fun j _ => rfl)
  exact ⟨h.1, h2.1, by rw [h2.2]; decide⟩

/-- C10: `BaseScraper.run()`'s terminal status is "completed" or "failed",
    never "blocked"; when every attempt returns a blocked result, the
    blocked reason of the last attempt becomes the `error_message` of the
    "failed" result. -/
theorem run_never_blocked (attempts : Nat → AttemptOutcome)
    (r : Nat → ScrapeResult) :
    ((run attempts).1.status = "completed" ∨ (run attempts).1.status = "failed") ∧
    ((∀ j, j < MAX_RETRIES → attempts j = .ok (r j) ∧ (r j).status = "blocked") →
      (run attempts).1.status = "failed" ∧
      (run attempts).1.error_message = (r (MAX_RETRIES - 1)).error_message) := by
  constructor
  · exact run_from_status_dichotomy attempts { started_at := some () } MAX_RETRIES 0 none
  · intro hbl
    have hwf : ∀ j, j < MAX_RETRIES → attempt_well_formed (attempts j) = true := by
      intro j hj
      rw [(hbl j hj).1, attempt_well_formed, (hbl j hj).2]
      rfl
    have hnc : ∀ j, j < MAX_RETRIES → attempt_completed (attempts j) = false := by
      intro j hj
      rw [(hbl j hj).1, attempt_completed, (hbl j hj).2]
      rfl
    have h := run_from_exhaust attempts { started_at := some () } MAX_RETRIES 0 none
      (by omega) hwf hnc
    rw [run, h]
    refine ⟨rfl, ?_⟩
    have h2 : attempts 2 = .ok (r 2) := (hbl 2 (by decide)).1
    simp [MAX_RETRIES, h2, attempt_error]

/-- Attempt oracle for the C10 witness. -/
def cBlockedResults : Nat → ScrapeResult := fun k =>
  { status := "blocked", error_message := some ⟨List.replicate (k + 1) 'z'⟩ }

/-- Helper: when the challenge is still detected at every poll within the
    window, the polling loop times out at `elapsed + remaining`. -/
theorem waitLoopFrom_stuck (env : Nat → PageState) :
    ∀ (remaining elapsed : Nat),
      (∀ t, elapsed < t → t ≤ elapsed + remaining → detect_cloudflare_challenge (env t) = true) →
      waitLoopFrom env remaining elapsed = (false, elapsed + remaining) := by
  intro remaining
  induction remaining with
  | zero => intro elapsed _; rfl
  | succ m ih =>
    intro elapsed h
    have h1 : detect_cloudflare_challenge (env (elapsed + 1)) = true :=
      h (elapsed + 1) (by omega) (by omega)
    rw [waitLoopFrom, if_pos h1]
    rw [ih (elapsed + 1) (fun t ht1 ht2 => h t (by omega) (by omega))]
    exact congrArg _ (by omega)

/-- C8: `detect_access_denied` is true exactly when the response status is
    403, 429 or 503, or the lower-cased page title contains one of the
    known-blocked phrases; a missing response (`None`) only consults the
    title, and the check is a pure predicate over the page state. -/
theorem detect_access_denied_iff (p : PageState) (response : Option Nat) :
    detect_access_denied p response = true ↔
      ((∃ s, response = some s ∧ (s = 403 ∨ s = 429 ∨ s = 503)) ∨
       (∃ t ∈ blocked_titles, strContains (strLower p.title) t = true)) := by
  unfold detect_access_denied
  cases response with
  | none => simp [List.any_eq_true]
  | some s =>
    by_cases h : (s == 403 || s == 429 || s == 503) = true
    · rw [if_pos h]
      refine ⟨fun _ => Or.inl ⟨s, rfl, ?_⟩, fun _ => rfl⟩
      simpa [Bool.or_eq_true, beq_iff_eq, or_assoc] using h
    · rw [if_neg h]
      simp only [List.any_eq_true]
      constructor
      · exact fun hx => Or.inr hx
      · intro hx
        rcases hx with ⟨t, hteq, hpt⟩ | hx
        · injection hteq with h2
          subst h2
          exact absurd (by rcases hpt with h3 | h3 | h3 <;> simp [h3]) h
        · exact hx

/-- C7: for a stealth-enabled registered scraper (all of them are), after
    navigation the attempt executor applies the detection heuristics: a
    challenge page that stays for all ten one-second polls makes the attempt
    "blocked" with reason "Cloudflare challenge not resolved"; an
    access-denied page fails the attempt immediately as "blocked" with the
    page title and the 500-character content snippet in the error detail. -/
theorem attempt_scrape_applies_detection
    (slug : String) (sflag : Bool)
    (hreg : (slug, sflag) ∈ registry_stealth_flags)
    (env env' : Nat → PageState)
    (hch : detect_cloudflare_challenge (env 0) = true)
    (hstuck : ∀ t, 1 ≤ t → t ≤ 10 → detect_cloudflare_challenge (env t) = true)
    (hch' : detect_cloudflare_challenge (env' 0) = false)
    (hden : detect_access_denied (env' 0) none = true) :
    ((attempt_scrape_page (use_stealth sflag) env).status = "blocked" ∧
     (attempt_scrape_page (use_stealth sflag) env).error_message =
       some "Cloudflare challenge not resolved") ∧
    ((attempt_scrape_page (use_stealth sflag) env').status = "blocked" ∧
     (attempt_scrape_page (use_stealth sflag) env').error_message =
       some ("Access denied. Title: " ++ (env' 0).title ++ ". Snippet: " ++
             strTake (env' 0).content 500)) := by
  have hs : sflag = true := by
    fin_cases hreg <;> rfl
  subst hs
  have hw : wait_for_challenge_resolution env = (false, 10) := by
    rw [wait_for_challenge_resolution]
    exact waitLoopFrom_stuck env 10 0 (fun t ht1 ht2 => hstuck t ht1 ht2)
  have hu : use_stealth true = true := rfl
  constructor
  · rw [hu]
    unfold attempt_scrape_page
    rw [if_pos rfl, if_pos hch, hw]
    exact ⟨rfl, rfl⟩
  · rw [hu]
    unfold attempt_scrape_page
    rw [if_pos rfl, if_neg (by rw [hch']; exact Bool.false_ne_true)]
    unfold attempt_after_challenge
    rw [if_pos hden]
    exact ⟨rfl, rfl⟩

/-- A page stuck on a challenge interstitial, for the C7 witness. -/
def cChallengePage : PageState :=
  { title := "Just a moment...", content := "cf-challenge-running", url := "https://shop.example/deals",
    screenshot := [] }

/-- A page carrying an access-denied block title, for the C7 witness. -/
def cDeniedPage : PageState :=
  { title := "Robot Check", content := "<html>captcha</html>", url := "https://shop.example/deals",
    screenshot := [] }

/-- C7 witness: on a page whose challenge never clears the attempt is
    blocked with the challenge reason; on an access-denied page the attempt
    is blocked with the title-and-snippet detail. -/
theorem attempt_scrape_applies_detection_witness :
    ((attempt_scrape_page (use_stealth true) (fun _ => cChallengePage)).status = "blocked" ∧
     (attempt_scrape_page (use_stealth true) (fun _ => cChallengePage)).error_message =
       some "Cloudflare challenge not resolved") ∧
    ((attempt_scrape_page (use_stealth true) (fun _ => cDeniedPage)).status = "blocked" ∧
     (attempt_scrape_page (use_stealth true) (fun _ => cDeniedPage)).error_message =
       some ("Access denied. Title: " ++ cDeniedPage.title ++ ". Snippet: " ++
             strTake cDeniedPage.content 500)) :=
  attempt_scrape_applies_detection "costco" true (by decide)
    (fun _ => cChallengePage) (fun _ => cDeniedPage)
    (by decide)
    (fun t _ _ => (by decide : detect_cloudflare_challenge cChallengePage = true))
    (by decide) (by decide)

/-- C10 witness: with three blocked attempts, `run` ends "failed" (not
    "blocked") carrying the last blocked reason. -/
theorem run_never_blocked_witness :
    ((run (fun k => .ok (cBlockedResults k))).1.status = "completed" ∨
      (run (fun k => .ok (cBlockedResults k))).1.status = "failed") ∧
    (run (fun k => .ok (cBlockedResults k))).1.status = "failed" ∧
    (run (fun k => .ok (cBlockedResults k))).1.error_message = some "zzz" := by
  have h := run_never_blocked (fun k => .ok (cBlockedResults k)) cBlockedResults
  have h2 := h.2 (fun j _ => ⟨rfl, rfl⟩)
  exact ⟨h.1, h2.1, by rw [h2.2]; decide⟩

end Base

namespace Storage

/-- C9: a `get_screenshot_filepath` request with "..", "/" or "\" in any of
    its retailer, date or filename components returns `None` after zero
    filesystem calls, for every filesystem. -/
theorem get_screenshot_filepath_rejects_traversal
    (exists_fn is_file_fn : List String → Bool)
    (retailer date_str filename : String)
    (hbad : ∃ c ∈ [retailer, date_str, filename],
      strContains c ".." = true ∨ strContains c "/" = true ∨
      strContains c "\\" = true) :
    get_screenshot_filepath exists_fn is_file_fn retailer date_str filename = (none, 0) := by
  unfold get_screenshot_filepath
  rw [if_pos]
  rw [List.any_eq_true]
  obtain ⟨c, hc, h⟩ := hbad
  exact ⟨c, hc, by rcases h with h | h | h <;> simp [h]⟩

/-- C9 witness: a concrete traversal request is rejected without touching
    the filesystem. -/
theorem get_screenshot_filepath_rejects_traversal_witness :
    get_screenshot_filepath (fun _ => true) (fun _ => true)
      "bestbuy" "2025-01-01" "..\\secret.png" = (none, 0) :=
  get_screenshot_filepath_rejects_traversal _ _ _ _ _
    ⟨"..\\secret.png", by decide, Or.inl (by decide)⟩

end Storage
end EcomWatch
